import Mathlib

/-
Verification development for the store-manager synchronization engine.

The definitions below are a shallow embedding of the Python source under
src/src/v1/src (handlers.py, utils.py, db_firebase.py, ebay/handler.py,
ebay/extract.py) plus decrease_listing_quantity from the older revision
src/src/db_firebase.py.  Conventions of the embedding:

* Python floats carrying money are modelled as rationals; Python
  round(x, 2) is modelled by round-half-to-even on rationals (round2).
* Python datetime.date values are a (year, month, day) structure; Python
  date comparison is lexicographic, which Date.ltb mirrors.  Timestamps
  that the code only stores or compares for equality keep this Date form;
  time-of-day components, which no claim inspects, are dropped.
* Python dict lookups with .get are Option values; a KeyError or other
  exception raised by the code is an explicit PyErr value.
* dict field strings that the code never reads are omitted from the raw
  record structures, except RawOrder.taxAmount, which is kept precisely
  because the enrichment code never reads it while the specification's
  additionalFees formula mentions a tax term.
-/

namespace StoreManager

/-- Calendar date (year, month, day), the model of Python datetime.date.
Python compares dates lexicographically on (year, month, day). -/
structure Date where
  year : Int
  month : Int
  day : Int
deriving DecidableEq, Repr

/-- Strict lexicographic order on dates, the model of Python date `<`. -/
def Date.ltb (a b : Date) : Bool :=
  if a.year < b.year then true
  else if b.year < a.year then false
  else if a.month < b.month then true
  else if b.month < a.month then false
  else decide (a.day < b.day)

/-- Days since the civil epoch 1970-01-01 (standard days-from-civil
algorithm), used to model Python timedelta .days for date differences. -/
def Date.toEpochDays (d : Date) : Int :=
  let y : Int := if d.month ≤ 2 then d.year - 1 else d.year
  let era : Int := (if 0 ≤ y then y else y - 399) / 400
  let yoe : Int := y - era * 400
  let mp : Int := (d.month + 9) % 12
  let doy : Int := (153 * mp + 2) / 5 + d.day - 1
  let doe : Int := yoe * 365 + yoe / 4 - yoe / 100 + doy
  era * 146097 + doe - 719468

/-- Model of utils.get_next_month_reset_date: the first day of the month
after `today` (year rolls over from December). -/
def getNextMonthResetDate (today : Date) : Date :=
  if today.month = 12 then ⟨today.year + 1, 1, 1⟩
  else ⟨today.year, today.month + 1, 1⟩

/-- Round a rational to the nearest integer, ties to even, the model of
Python round() on an exact value. -/
def roundHalfEven (q : ℚ) : Int :=
  let f : Int := ⌊q⌋
  let r : ℚ := q - (f : ℚ)
  if r < 1/2 then f
  else if 1/2 < r then f + 1
  else if f % 2 = 0 then f else f + 1

/-- Model of Python round(x, 2) on money values. -/
def round2 (q : ℚ) : ℚ := (roundHalfEven (q * 100) : ℚ) / 100

/-- Python exceptions that the embedded code paths can raise. -/
inductive PyErr where
  | keyError
  | typeError
  | attributeError
  | valueError
deriving DecidableEq, Repr

/- ------------------------------------------------------------------ -/
/- Listings: raw eBay payload, normalized record, diff detection      -/
/- ------------------------------------------------------------------ -/

/-- Fields of a raw GetMyeBaySelling listing that
ebay/handler.py:process_listings reads. -/
structure RawListing where
  itemID : String
  quantityAvailable : Int
  currencyID : String
  startTime : String
  galleryURL : String
  quantityListed : Int
  title : String
  currentPrice : ℚ
  viewItemURL : String
  listingType : String
deriving DecidableEq, Repr

/-- Normalized inventory record (the dict built at
ebay/handler.py lines 158-177).  The createdAt / lastModified timestamp
strings, which check_for_listing_changes never compares and no claim
mentions, are omitted; customTag / purchasePlatform / purchasePrice model
user-filled fields a stored record may carry (absent from freshly built
records). -/
structure ListingRecord where
  itemId : String
  name : String
  price : ℚ
  quantity : Int
  initialQuantity : Int
  currency : String
  dateListed : String
  image : List String
  url : String
  listingType : String
  recordType : String
  storeType : String
  customTag : Option String
  purchasePlatform : Option String
  purchasePrice : Option ℚ
deriving DecidableEq, Repr

/-- The listing dict constructed for each raw listing in
process_listings (Step 6 of the source). -/
def mkListingItem (l : RawListing) : ListingRecord :=
  { itemId := l.itemID
    name := l.title
    price := round2 l.currentPrice
    quantity := l.quantityAvailable
    initialQuantity := l.quantityListed
    currency := l.currencyID
    dateListed := l.startTime
    image := [l.galleryURL]
    url := l.viewItemURL
    listingType := l.listingType
    recordType := "automatic"
    storeType := "ebay"
    customTag := none
    purchasePlatform := none
    purchasePrice := none }

/-- Model of ebay/handler.py:check_for_listing_changes - true when the
new listing is absent from the store or differs on any of the nine
compared fields. -/
def checkForListingChanges (newL : ListingRecord) (dbL : Option ListingRecord) : Bool :=
  match dbL with
  | none => true
  | some d =>
    decide (newL.currency ≠ d.currency ∨ newL.dateListed ≠ d.dateListed
      ∨ newL.image ≠ d.image ∨ newL.initialQuantity ≠ d.initialQuantity
      ∨ newL.itemId ≠ d.itemId ∨ newL.name ≠ d.name
      ∨ newL.price ≠ d.price ∨ newL.quantity ≠ d.quantity
      ∨ newL.url ≠ d.url)

/-- Result of process_listings.  The source's early return inside the
record loop (line 185) yields a 3-tuple without force_update, which the
caller unpacks into four names and therefore raises ValueError; that
early return is the `early` constructor. -/
inductive PLResult where
  | normal (items : List ListingRecord) (newCount : Int) (slots : Int)
      (forceUpdate : Bool) (removed : List String)
  | early (items : List ListingRecord) (newCount : Int) (slots : Int)
      (removed : List String)
deriving DecidableEq, Repr

/-- Model of the record loop of ebay/handler.py:process_listings.
`dbMap` is the batched lookup result (get_items_by_ids); `removed`
accumulates the ids passed to db.remove_item.  Mirrors the source
statement for statement: a db miss first increments new_items_count and
decrements available_slots; a zero quantity with a stored record removes
the record, decrements new_items_count, sets force_update and then FALLS
THROUGH to the item construction; a zero quantity without a stored
record continues to the next record, skipping the slot-exhaustion check
at the bottom of the loop. -/
def processListingsGo (dbMap : String → Option ListingRecord) :
    List RawListing → List ListingRecord → Int → Int → Bool → List String → PLResult
  | [], items, cnt, slots, force, removed => .normal items cnt slots force removed
  | l :: rest, items, cnt, slots, force, removed =>
    let dbl := dbMap l.itemID
    let cnt1 := if dbl = none then cnt + 1 else cnt
    let slots1 := if dbl = none then slots - 1 else slots
    if l.quantityAvailable = 0 ∧ dbl ≠ none then
      let removed1 := removed ++ [l.itemID]
      let cnt2 := cnt1 - 1
      let item := mkListingItem l
      let items1 := if checkForListingChanges item dbl then items ++ [item] else items
      if slots1 ≤ 0 then .early items1 cnt2 slots1 removed1
      else processListingsGo dbMap rest items1 cnt2 slots1 true removed1
    else if l.quantityAvailable = 0 then
      processListingsGo dbMap rest items cnt1 slots1 force removed
    else
      let item := mkListingItem l
      let items1 := if checkForListingChanges item dbl then items ++ [item] else items
      if slots1 ≤ 0 then .early items1 cnt1 slots1 removed
      else processListingsGo dbMap rest items1 cnt1 slots1 force removed

/-- Entry point of the process_listings loop: items start empty,
new_items_count starts at 0 and force_update starts False for every
call (ebay/handler.py line 128). -/
def processListings (dbMap : String → Option ListingRecord)
    (page : List RawListing) (slots : Int) : PLResult :=
  processListingsGo dbMap page [] 0 slots false []

/-- Outcome of fetch_ebay_listings over a single upstream page. -/
inductive ListingsSyncResult where
  | ok (items : List ListingRecord) (newCount : Int) (forceUpdate : Bool)
      (removed : List String)
  | nameErrorCrash
  | unpackCrash (removed : List String)
deriving DecidableEq, Repr

/-- Model of ebay/handler.py:fetch_ebay_listings when the marketplace
reports a single page (total_pages = 1).  available_slots is
limit - automaticListings (Step 2).  When the while loop body never runs
(no slots, or an empty page breaks immediately) the return statement
reads the unassigned name new_items_count and raises NameError; when
process_listings takes its early 3-tuple return, the 4-name unpacking at
the call site raises ValueError.  Both crashes abort the sync before any
result is returned. -/
def fetchEbayListingsOnePage (dbMap : String → Option ListingRecord)
    (limit s0 : Int) (page : List RawListing) : ListingsSyncResult :=
  let slots := limit - s0
  if slots ≤ 0 then .nameErrorCrash
  else if page.isEmpty then .nameErrorCrash
  else
    match processListings dbMap page slots with
    | .normal items cnt _ force removed => .ok items cnt force removed
    | .early _ _ _ removed => .unpackCrash removed

/-- Model of v1/src/db_firebase.py:set_current_no_listings - the stored
automatic listings counter after a completed sync is the counter read at
sync start plus the walker's new_items_count. -/
def storedAutomaticAfter (s0 newCount : Int) : Int := s0 + newCount

/-- Model of the older revision's
src/src/db_firebase.py:decrease_listing_quantity outcome. -/
inductive DecreaseResult where
  | notFound
  | deleted
  | updated (newQuantity : Int)
deriving DecidableEq, Repr

/-- Model of src/src/db_firebase.py:decrease_listing_quantity: the
stored listing is deleted only when the decremented quantity is exactly
zero; otherwise the quantity is clamped at zero and the (possibly
zero-quantity) listing is kept. -/
def decreaseListingQuantity (stored : Option Int) (q : Int) : DecreaseResult :=
  match stored with
  | none => .notFound
  | some cur =>
    if cur - q = 0 then .deleted
    else .updated (max (cur - q) 0)

/- ------------------------------------------------------------------ -/
/- Orders: raw eBay payload, enrichment pipeline                      -/
/- ------------------------------------------------------------------ -/

/-- Raw MonetaryDetails.Refunds.Refund payload fields read by
ebay/extract.py:extract_refund_data. -/
structure RefundInfo where
  refundStatus : Option String
  refundType : Option String
  refundAmountValue : ℚ
  refundCurrency : Option String
  refundTo : Option String
  refundTime : Option Date
  referenceId : Option String
deriving DecidableEq, Repr

/-- Normalized refund object produced by extract_refund_data. -/
structure Refund where
  status : Option String
  rtype : Option String
  amount : ℚ
  currency : String
  refundedTo : Option String
  refundedAt : Option Date
  referenceId : Option String
deriving DecidableEq, Repr

/-- Model of ebay/extract.py:extract_refund_data.  It returns None
immediately unless is_cancelled is true (the flag the handlers compute
as order_status == "Cancelled"), returns None when the refund payload is
absent, and otherwise builds the refund object with the absolute refund
amount and a "GBP" currency default. -/
def extractRefundData (refundInfo : Option RefundInfo) (isCancelled : Bool) :
    Option Refund :=
  if !isCancelled then none
  else
    match refundInfo with
    | none => none
    | some r =>
      some { status := r.refundStatus
             rtype := r.refundType
             amount := |r.refundAmountValue|
             currency := r.refundCurrency.getD "GBP"
             refundedTo := r.refundTo
             refundedAt := r.refundTime
             referenceId := r.referenceId }

/-- ShipmentTrackingDetails fields read by extract_shipping_details. -/
structure TrackingDetails where
  shippingCarrierUsed : Option String
  shipmentTrackingNumber : Option String
deriving DecidableEq, Repr

/-- Normalized shipping object produced by extract_shipping_details. -/
structure Shipping where
  fees : ℚ
  shippedAt : Option Date
  paymentToShipped : Option Int
  service : String
  timeDays : Option Int
  trackingNumber : Option String
deriving DecidableEq, Repr

/-- ShippingDetails.ShippingServiceOptions, which the upstream encodes
either as a list of option objects or as a single object; the model of
the shape polymorphism handled by extract_shipping_cost.  Each entry is
the option's ShippingServiceCost value when present.  An empty or
cost-free single object is `single none` (the code returns 0 for it
either via the len check or the missing-cost branch). -/
inductive ShippingServiceOptions where
  | list (opts : List (Option ℚ))
  | single (cost : Option ℚ)
deriving DecidableEq, Repr

/-- Model of ebay/extract.py:extract_shipping_cost: 0 for an empty
list, the first element's cost (or 0 when that element has none) for a
list, and the object's cost (or 0) for a single object. -/
def extractShippingCost (o : ShippingServiceOptions) : ℚ :=
  match o with
  | .list [] => 0
  | .list (c :: _) => c.getD 0
  | .single c => c.getD 0

/-- Raw transaction fields read by the order handlers.
shipmentTracking collapses transaction.ShippingDetails
.ShipmentTrackingDetails, the only part of the transaction's
ShippingDetails that extract_shipping_details reads. -/
structure RawTransaction where
  transactionID : String
  itemID : String
  title : String
  site : Option String
  quantityPurchased : Int
  transactionPriceValue : ℚ
  transactionCurrency : Option String
  shipmentTracking : Option TrackingDetails
deriving DecidableEq, Repr

/-- Raw order fields read by the order handlers.  taxAmount is carried
by the marketplace payload but never read by any extraction or handler
code. -/
structure RawOrder where
  orderID : String
  orderStatus : String
  amountPaidValue : ℚ
  lastModifiedTime : Date
  createdTime : Date
  buyerUserID : String
  shippedTime : Option Date
  paidTime : Option Date
  actualDeliveryTime : Option Date
  shippingServiceOptions : ShippingServiceOptions
  refundInfo : Option RefundInfo
  taxAmount : ℚ
  transactions : List RawTransaction
deriving DecidableEq, Repr

/-- Model of ebay/extract.py:extract_shipping_details.  The
paymentToShipped and timeDays fields are day differences of the parsed
timestamps; the tracking block defaults the carrier to the empty string
and leaves the tracking number optional. -/
def extractShippingDetails (order : RawOrder) (td : Option TrackingDetails) :
    Shipping :=
  let tracking := td.getD ⟨none, none⟩
  { fees := extractShippingCost order.shippingServiceOptions
    shippedAt := order.shippedTime
    paymentToShipped :=
      match order.shippedTime, order.paidTime with
      | some s, some p => some (s.toEpochDays - p.toEpochDays)
      | _, _ => none
    service := tracking.shippingCarrierUsed.getD ""
    timeDays :=
      match order.actualDeliveryTime, order.shippedTime with
      | some a, some s => some (a.toEpochDays - s.toEpochDays)
      | _, _ => none
    trackingNumber := tracking.shipmentTrackingNumber }

/-- Purchase block built inside get_listing_for_order. -/
structure Purchase where
  currency : Option String
  date : Option String
  platform : Option String
  price : Option ℚ
  quantity : Option Int
deriving DecidableEq, Repr

/-- An image value, which in the stored dicts is either a single string
(from the eBay item-detail fallback) or a list of strings (from a stored
listing). -/
inductive ImageVal where
  | strVal (s : String)
  | listVal (l : List String)
deriving DecidableEq, Repr

/-- History event of an order timeline. -/
structure HistoryEvent where
  title : String
  description : String
  status : String
  timestamp : Date
deriving DecidableEq, Repr

/-- Sale block of a normalized order record. -/
structure Sale where
  currency : Option String
  date : Date
  platform : String
  price : ℚ
  quantity : Int
  buyerUsername : String
deriving DecidableEq, Repr

/-- Normalized order record (the dict built by handle_new_order at
ebay/handler.py lines 468-493).  The createdAt timestamp string, which
nothing compares and no claim mentions, is omitted.  handle_new_order's
dict carries no history key, modelled as the empty event list; stored
records written by earlier revisions may carry a non-empty one. -/
structure OrderRecord where
  additionalFees : ℚ
  customTag : Option String
  transactionId : String
  name : String
  itemId : String
  image : Option ImageVal
  orderId : String
  purchase : Purchase
  recordType : String
  listingDate : Option String
  sale : Sale
  shipping : Shipping
  status : String
  storeType : String
  refund : Option Refund
  history : List HistoryEvent
  lastModified : Date
deriving DecidableEq, Repr

/-- Result of ebay/handler.py:fetch_listing_details_from_ebay - the
image (first picture URL, possibly absent) and listing start time. -/
structure FallbackDetails where
  image : Option String
  dateListed : Option String
deriving DecidableEq, Repr

/-- Data that get_listing_for_order hands to handle_new_order. -/
structure ListingDataForOrder where
  customTag : Option String
  image : Option ImageVal
  purchase : Purchase
  dateListed : Option String
deriving DecidableEq, Repr

/-- Model of ebay/handler.py:get_listing_for_order.  A stored inventory
record wins; otherwise the eBay item-detail fallback supplies image and
listing date only; when both are absent the function returns the empty
dict, which makes handle_new_order's listing_data subscript raise
KeyError (the `none` result). -/
def getListingForOrder (dbItem : Option ListingRecord)
    (fallback : Option FallbackDetails) : Option ListingDataForOrder :=
  match dbItem with
  | some l =>
    some { customTag := l.customTag
           image := some (.listVal l.image)
           purchase :=
             { currency := some l.currency
               date := some l.dateListed
               platform := l.purchasePlatform
               price := l.purchasePrice
               quantity := some l.initialQuantity }
           dateListed := some l.dateListed }
  | none =>
    match fallback with
    | some f =>
      some { customTag := none
             image := f.image.map .strVal
             purchase :=
               { currency := none
                 date := f.dateListed
                 platform := none
                 price := none
                 quantity := none }
             dateListed := f.dateListed }
    | none => none

/-- Model of ebay/handler.py:handle_new_order.  dbItem and fallback are
the results of the inventory lookup and the eBay item-detail fetch for
the transaction's item id. -/
def handleNewOrder (dbItem : Option ListingRecord)
    (fallback : Option FallbackDetails) (order : RawOrder)
    (t : RawTransaction) : Except PyErr OrderRecord :=
  let orderStatus := order.orderStatus
  let isCancelled := decide (orderStatus = "Cancelled")
  let salePrice := (t.quantityPurchased : ℚ) * t.transactionPriceValue
  let refund :=
    if orderStatus = "CancelPending" ∨ orderStatus = "Cancelled" then
      extractRefundData order.refundInfo isCancelled
    else none
  match getListingForOrder dbItem fallback with
  | none => .error .keyError
  | some ld =>
    let shipping := extractShippingDetails order t.shipmentTracking
    let additionalFees :=
      if isCancelled then 0
      else round2 (order.amountPaidValue - salePrice - shipping.fees)
    .ok { additionalFees := additionalFees
          customTag := ld.customTag
          transactionId := t.transactionID
          name := t.title
          itemId := t.itemID
          image := ld.image
          orderId := order.orderID
          purchase := ld.purchase
          recordType := "automatic"
          listingDate := ld.dateListed
          sale :=
            { currency := t.transactionCurrency
              date := order.createdTime
              platform := t.site.getD "eBay"
              price := salePrice
              quantity := t.quantityPurchased
              buyerUsername := order.buyerUserID }
          shipping := shipping
          status := orderStatus
          storeType := "ebay"
          refund := refund
          history := []
          lastModified := order.lastModifiedTime }

/-- Model of ebay/handler.py:handle_modified_order.  The stored record's
fields in the update map (additionalFees, shipping, status, refund,
name) and the nested sale price and quantity are replaced by the
recomputed values; lastModified is refreshed only when some compared
value differed; everything else - in particular the history list - is
copied from the stored record untouched. -/
def handleModifiedOrder (order : RawOrder) (t : RawTransaction)
    (stored : OrderRecord) : OrderRecord :=
  let orderStatus := order.orderStatus
  let isCancelled := decide (orderStatus = "Cancelled")
  let itemName := t.title
  let quantitySold := t.quantityPurchased
  let salePrice := (quantitySold : ℚ) * t.transactionPriceValue
  let refund :=
    if orderStatus = "CancelPending" ∨ orderStatus = "Cancelled" then
      extractRefundData order.refundInfo isCancelled
    else none
  let newShipping := extractShippingDetails order t.shipmentTracking
  let newAdditionalFees :=
    if isCancelled then 0
    else round2 (order.amountPaidValue - salePrice - newShipping.fees)
  let upd :=
    { stored with
      additionalFees := newAdditionalFees
      shipping := newShipping
      status := orderStatus
      refund := refund
      name := itemName
      sale := { stored.sale with price := salePrice, quantity := quantitySold } }
  if stored.additionalFees ≠ newAdditionalFees ∨ stored.shipping ≠ newShipping
      ∨ stored.status ≠ orderStatus ∨ stored.refund ≠ refund
      ∨ stored.name ≠ itemName ∨ stored.sale.price ≠ salePrice
      ∨ stored.sale.quantity ≠ quantitySold then
    { upd with lastModified := order.lastModifiedTime }
  else upd

/-- Model of utils.was_order_created_in_current_month on a record built
by the handlers (whose sale date is always present): true when the sale
date's month and year equal the current month and year. -/
def wasOrderCreatedInCurrentMonth (now : Date) (rec : OrderRecord) : Bool :=
  rec.sale.date.month == now.month && rec.sale.date.year == now.year

/- ------------------------------------------------------------------ -/
/- Orders walker (process_orders) and persistence / counter layer     -/
/- ------------------------------------------------------------------ -/

/-- External environment of a run of process_orders: the current date,
the stored-order lookup (db.retrieve_item on the orders collection), the
stored-inventory lookup and the eBay item-detail fallback used by
get_listing_for_order. -/
structure OrdersEnv where
  now : Date
  dbOrder : String → Option OrderRecord
  dbItem : String → Option ListingRecord
  fallback : String → Option FallbackDetails

/-- The (order, transaction) pairs process_orders iterates over, in
iteration order.  Flattening the two nested loops is exact because the
early return exits both loops at once. -/
def orderPairs (orders : List RawOrder) : List (RawOrder × RawTransaction) :=
  (orders.map (fun o => o.transactions.map (fun t => (o, t)))).flatten

/-- Model of the loop body of ebay/handler.py:process_orders.  A db
miss enriches via handle_new_order (propagating its exception), counts
the record as new or old by sale month and consumes one slot; a db hit
goes through handle_modified_order and is appended without touching the
counters or slots; after either branch the loop returns as soon as
available_slots ≤ 0. -/
def processOrdersGo (env : OrdersEnv) :
    List (RawOrder × RawTransaction) → List OrderRecord → Int → Int → Int →
    Except PyErr (List OrderRecord × Int × Int × Int)
  | [], items, n, o, s => .ok (items, n, o, s)
  | (ord, t) :: rest, items, n, o, s =>
    match env.dbOrder t.transactionID with
    | none =>
      match handleNewOrder (env.dbItem t.itemID) (env.fallback t.itemID) ord t with
      | .error e => .error e
      | .ok item =>
        let isNew := wasOrderCreatedInCurrentMonth env.now item
        let n1 := if isNew then n + 1 else n
        let o1 := if isNew then o else o + 1
        let items1 := items ++ [item]
        let s1 := s - 1
        if s1 ≤ 0 then .ok (items1, n1, o1, s1)
        else processOrdersGo env rest items1 n1 o1 s1
    | some dbt =>
      let item := handleModifiedOrder ord t dbt
      let items1 := items ++ [item]
      if s ≤ 0 then .ok (items1, n, o, s)
      else processOrdersGo env rest items1 n o s

/-- Entry point of process_orders for one page: the items list starts
empty on every call while the new/old counters are threaded through from
the caller (fetch_ebay_orders). -/
def processOrders (env : OrdersEnv) (orders : List RawOrder)
    (n o s : Int) : Except PyErr (List OrderRecord × Int × Int × Int) :=
  processOrdersGo env (orderPairs orders) [] n o s

/-- Outcome of handlers.py:update_db with respect to the Persistence
Gateway.  `skipped` is the early return when the items list is empty and
force_update is false.  Otherwise update_db invokes db.add_items with
five positional arguments while the v1 gateway method
(v1/src/db_firebase.py line 285) declares four, so the call raises
TypeError inside the handle_firestore_errors wrapper - re-raised as
RuntimeError - before any document write: no upsert is ever applied, and
the set_last_fetched_date, set_offset and counter writes that follow the
add_items call in update_db are never reached.
`attemptedAddItemsTypeError` records the write set the faulting call was
issued with. -/
inductive UpdateDbOutcome (α : Type) where
  | skipped
  | attemptedAddItemsTypeError (writes : List α)
deriving DecidableEq, Repr

/-- Model of handlers.py:update_db (line 223): return without touching
the gateway iff the items list is empty and force_update is false;
otherwise the faulting add_items call is issued. -/
def updateDb {α : Type} (items : List α) (forceUpdate : Bool) :
    UpdateDbOutcome α :=
  if items.isEmpty && !forceUpdate then .skipped
  else .attemptedAddItemsTypeError items

/-- Model of v1/src/db_firebase.py:set_current_no_orders - the stored
automatic orders counter after a completed sync adds the walker's new
count to the counter read at sync start. -/
def storedAutomaticOrdersAfter (currentAuto newOrders : Int) : Int :=
  currentAuto + newOrders

/- ------------------------------------------------------------------ -/
/- Quota counters, lazy reset and pre-flight guard                    -/
/- ------------------------------------------------------------------ -/

/-- Model of the pydantic INumListings counter block. -/
structure INumListings where
  automatic : Option Int
  manual : Option Int
deriving DecidableEq, Repr

/-- Model of the pydantic INumOrders counter block; resetDate is the
parsed reset date, none when the stored string is missing or fails to
parse. -/
structure INumOrders where
  resetDate : Option Date
  automatic : Option Int
  manual : Option Int
  totalAutomatic : Option Int
  totalManual : Option Int
deriving DecidableEq, Repr

/-- Model of the pydantic IStore counter container. -/
structure IStore where
  numListings : Option INumListings
  numOrders : Option INumOrders
deriving DecidableEq, Repr

/-- Counts returned by utils.fetch_user_inventory_and_orders_count. -/
structure UserCounts where
  automaticListings : Int
  manualListings : Int
  automaticOrders : Int
  manualOrders : Int
deriving DecidableEq, Repr

/-- Model of utils.fetch_user_inventory_and_orders_count.  When the
stored reset date is strictly before today (Python `today > reset_date`)
the function enters its reset branch, which executes
`for key, value in store_data.items()` on the pydantic IStore model;
BaseModel has no items method, so the branch raises AttributeError and
the whole sync aborts (and had iteration succeeded, the inner call
`db.reset_current_no_orders(user_ref, store_type_key)` passes an extra
positional argument to the two-parameter method, raising TypeError).
The error result models that crash.  Otherwise the stored counts are
returned with Python `or 0` defaults. -/
def fetchUserInventoryAndOrdersCount (today : Date) (store : Option IStore) :
    Except PyErr UserCounts :=
  match store with
  | none => .ok ⟨0, 0, 0, 0⟩
  | some s =>
    let al := match s.numListings with
      | some nl => nl.automatic.getD 0
      | none => 0
    let ml := match s.numListings with
      | some nl => nl.manual.getD 0
      | none => 0
    match s.numOrders with
    | none => .ok ⟨al, ml, 0, 0⟩
    | some no =>
      match no.resetDate with
      | some rd =>
        if Date.ltb rd today then .error .attributeError
        else .ok ⟨al, ml, no.automatic.getD 0, no.manual.getD 0⟩
      | none => .ok ⟨al, ml, no.automatic.getD 0, no.manual.getD 0⟩

/-- Model of the pre-flight limit check of handlers.py:
fetch_and_check_user (line 95): the count compared is always
automaticOrders, whatever item kind the sync was requested for, against
the automatic limit fetched for the requested kind. -/
def quotaGuardRejects (counts : UserCounts) (kindLimitAutomatic : Int) : Bool :=
  decide (kindLimitAutomatic ≤ counts.automaticOrders)

/-- Outcome of fetch_and_check_user.  `errorResponse 500 true` is the
quota rejection: the function raises HTTPException(400, ...) but its
blanket except clause catches it and returns HTTPException(500) with the
400 message embedded in the detail string, so the caller observes a 500
and never reaches the fetch walker.  `errorResponse 500 false` is any
other swallowed exception (for instance the reset-branch
AttributeError).  `proceed` hands (user_ref, user, limits) to the route,
which then invokes update_items and hence the marketplace fetch. -/
inductive CheckUserOutcome where
  | proceed (kindLimitAutomatic : Int)
  | errorResponse (status : Int) (wrappedQuota400 : Bool)
deriving DecidableEq, Repr

/-- Model of steps 8-9 of handlers.py:fetch_and_check_user for a user
that passed the uid / connected-account / subscription checks:
count fetch (with its lazy-reset crash), then the limit guard. -/
def fetchAndCheckUser (today : Date) (store : Option IStore)
    (kindLimitAutomatic : Int) : CheckUserOutcome :=
  match fetchUserInventoryAndOrdersCount today store with
  | .error _ => .errorResponse 500 false
  | .ok counts =>
    if quotaGuardRejects counts kindLimitAutomatic then .errorResponse 500 true
    else .proceed kindLimitAutomatic

/-- Whether the route layer goes on to call update_items (and hence
issue marketplace fetches and persistence writes): only on a proceed
outcome - an errorResponse returned by fetch_and_check_user fails the
route's 3-name unpacking and the request ends with a 500, no fetch. -/
def endpointIssuesFetch (out : CheckUserOutcome) : Bool :=
  match out with
  | .proceed _ => true
  | .errorResponse _ _ => false

/-- Stated from the specification for comparison with the source (the
claim's formula): additionalFees = round(totalPaid - salePrice -
shippingFees - taxAmount, 2), clamped to 0 when the order is
cancelled. -/
def specAdditionalFees (totalPaid salePrice shippingFees taxAmount : ℚ)
    (cancelled : Bool) : ℚ :=
  if cancelled then 0
  else round2 (totalPaid - salePrice - shippingFees - taxAmount)

/- ------------------------------------------------------------------ -/
/- Concrete fixtures                                                  -/
/- ------------------------------------------------------------------ -/

/-- Items list carried by either process_listings result form. -/
def PLResult.itemsOf : PLResult → List ListingRecord
  | .normal items _ _ _ _ => items
  | .early items _ _ _ => items

/-- Removal list carried by either process_listings result form: the
ids handed to db.remove_item during the walk. -/
def PLResult.removedOf : PLResult → List String
  | .normal _ _ _ _ removed => removed
  | .early _ _ _ removed => removed

/-- Net effect of one listings sync on the stored inventory.  The
db.remove_item deletes are awaited inside process_listings and are
durable even when the sync fails later; update_db can apply no upsert in
either case - on the normal result its add_items call raises TypeError
on the extra argument before writing any document (see UpdateDbOutcome),
and on the early result the 4-name unpacking crashes the sync before
update_db runs - so the post-sync store is the pre-sync store minus the
removed ids. -/
def listingsStoreAfterSync (pre : String → Option ListingRecord)
    (page : List RawListing) (slots : Int) : String → Option ListingRecord :=
  fun id =>
    if id ∈ (processListings pre page slots).removedOf then none else pre id

/-- An inventory lookup that finds nothing. -/
def emptyInventory : String → Option ListingRecord := fun _ => none

/-- A raw listing with one unit available. -/
def rawL1 : RawListing :=
  ⟨"itm1", 1, "GBP", "2026-01-01T00:00:00.000Z", "img1", 1, "Item One", 10,
    "url1", "FixedPrice"⟩

/-- A raw listing with zero quantity available. -/
def rawL2 : RawListing :=
  ⟨"itm2", 0, "GBP", "2026-01-02T00:00:00.000Z", "img2", 3, "Item Two", 5,
    "url2", "FixedPrice"⟩

/-- A second raw listing with zero quantity available. -/
def rawL3 : RawListing :=
  ⟨"itm3", 0, "GBP", "2026-01-03T00:00:00.000Z", "img3", 2, "Item Three", 7,
    "url3", "FixedPrice"⟩

/-- A raw listing for item itmx with one unit available. -/
def rawLX1 : RawListing :=
  ⟨"itmx", 1, "GBP", "2026-01-05T00:00:00.000Z", "imgx", 4, "Item X", 20,
    "urlx", "FixedPrice"⟩

/-- The same raw listing re-fetched with zero quantity available. -/
def rawLX0 : RawListing :=
  { rawLX1 with quantityAvailable := 0 }

/-- An inventory store holding exactly the normalized record of rawLX1. -/
def invWithX : String → Option ListingRecord :=
  fun id => if id = "itmx" then some (mkListingItem rawLX1) else none

/-- An inventory store holding the itmx record already at quantity 0,
as the over-decrement clamp of decrease_listing_quantity can leave
it. -/
def invWithXZero : String → Option ListingRecord :=
  fun id => if id = "itmx" then some (mkListingItem rawLX0) else none

/-- Tracking details of the fixture order. -/
def trackA : TrackingDetails := ⟨some "RoyalMail", some "TRK123"⟩

/-- Fixture transaction: two units of itmx at 15 each. -/
def txA : RawTransaction :=
  ⟨"tx1", "itmx", "Item X", some "eBay UK", 2, 15, some "GBP", some trackA⟩

/-- Fixture order: completed, 35 paid, shipping cost 5, shipped one day
after payment, delivered three days after shipping. -/
def orderA : RawOrder :=
  { orderID := "ord1"
    orderStatus := "Completed"
    amountPaidValue := 35
    lastModifiedTime := ⟨2026, 10, 10⟩
    createdTime := ⟨2026, 10, 1⟩
    buyerUserID := "buyer1"
    shippedTime := some ⟨2026, 10, 3⟩
    paidTime := some ⟨2026, 10, 2⟩
    actualDeliveryTime := some ⟨2026, 10, 6⟩
    shippingServiceOptions := .list [some 5]
    refundInfo := none
    taxAmount := 0
    transactions := [txA] }

/-- The record handle_new_order builds for orderA / txA against
invWithX (checked below by the round-trip evaluations). -/
def recA : OrderRecord :=
  { additionalFees := 0
    customTag := none
    transactionId := "tx1"
    name := "Item X"
    itemId := "itmx"
    image := some (.listVal ["imgx"])
    orderId := "ord1"
    purchase :=
      ⟨some "GBP", some "2026-01-05T00:00:00.000Z", none, none, some 4⟩
    recordType := "automatic"
    listingDate := some "2026-01-05T00:00:00.000Z"
    sale := ⟨some "GBP", ⟨2026, 10, 1⟩, "eBay UK", 30, 2, "buyer1"⟩
    shipping :=
      ⟨5, some ⟨2026, 10, 3⟩, some 1, "RoyalMail", some 3, some "TRK123"⟩
    status := "Completed"
    storeType := "ebay"
    refund := none
    history := []
    lastModified := ⟨2026, 10, 10⟩ }

/-- The "Sold" event a stored order from an earlier revision carries. -/
def soldEvent : HistoryEvent :=
  ⟨"Sold", "Order placed on eBay eBay UK for 30", "Active", ⟨2026, 10, 1⟩⟩

/-- A stored order created while the order was still Active, carrying a
Sold history event. -/
def storedRec7 : OrderRecord :=
  { recA with
    status := "Active"
    history := [soldEvent]
    lastModified := ⟨2026, 10, 5⟩ }

/-- A stored order whose name differs from the re-fetched title. -/
def storedRec10 : OrderRecord :=
  { recA with name := "Old Name", lastModified := ⟨2026, 10, 5⟩ }

/-- An orders store holding exactly recA under its transaction id. -/
def ordersWithA : String → Option OrderRecord :=
  fun id => if id = "tx1" then some recA else none

/-- Environment of a first orders run: nothing stored yet. -/
def envFirstRun : OrdersEnv :=
  ⟨⟨2026, 10, 12⟩, fun _ => none, invWithX, fun _ => none⟩

/-- Environment of an immediate second orders run over the same
upstream response: recA is now stored. -/
def envSecondRun : OrdersEnv :=
  ⟨⟨2026, 10, 12⟩, ordersWithA, invWithX, fun _ => none⟩

/-- eBay item-detail fallback fixture. -/
def fb8 : FallbackDetails := ⟨some "img8", some "2026-02-02T00:00:00.000Z"⟩

/-- Fixture transaction: two units at 40 each. -/
def tx8 : RawTransaction :=
  ⟨"tx8", "itm8", "Item 8", some "eBay", 2, 40, some "GBP", none⟩

/-- Fixture order carrying a 10-unit tax component in its raw payload:
100 paid, 80 sale price, 5 shipping. -/
def order8 : RawOrder :=
  { orderID := "ord8"
    orderStatus := "Completed"
    amountPaidValue := 100
    lastModifiedTime := ⟨2026, 10, 10⟩
    createdTime := ⟨2026, 10, 2⟩
    buyerUserID := "b8"
    shippedTime := none
    paidTime := none
    actualDeliveryTime := none
    shippingServiceOptions := .list [some 5]
    refundInfo := none
    taxAmount := 10
    transactions := [tx8] }

/-- The record handle_new_order builds for order8 / tx8 with the
item-detail fallback fb8. -/
def rec8 : OrderRecord :=
  { additionalFees := 15
    customTag := none
    transactionId := "tx8"
    name := "Item 8"
    itemId := "itm8"
    image := some (.strVal "img8")
    orderId := "ord8"
    purchase := ⟨none, some "2026-02-02T00:00:00.000Z", none, none, none⟩
    recordType := "automatic"
    listingDate := some "2026-02-02T00:00:00.000Z"
    sale := ⟨some "GBP", ⟨2026, 10, 2⟩, "eBay", 80, 2, "b8"⟩
    shipping := ⟨5, none, none, "", none, none⟩
    status := "Completed"
    storeType := "ebay"
    refund := none
    history := []
    lastModified := ⟨2026, 10, 10⟩ }

/-- Raw refund payload of the cancel-pending fixture order. -/
def ri9 : RefundInfo :=
  ⟨some "Success", some "Full", -25, some "GBP", some "eBayUser",
    some ⟨2026, 10, 8⟩, some "ref9"⟩

/-- Fixture transaction: one unit at 25. -/
def tx9 : RawTransaction :=
  ⟨"tx9", "itm9", "Item 9", none, 1, 25, some "GBP", none⟩

/-- Fixture order in CancelPending status carrying a refund payload. -/
def order9 : RawOrder :=
  { orderID := "ord9"
    orderStatus := "CancelPending"
    amountPaidValue := 25
    lastModifiedTime := ⟨2026, 10, 9⟩
    createdTime := ⟨2026, 10, 2⟩
    buyerUserID := "b9"
    shippedTime := none
    paidTime := none
    actualDeliveryTime := none
    shippingServiceOptions := .single (some 0)
    refundInfo := some ri9
    taxAmount := 0
    transactions := [tx9] }

/-- The record handle_new_order builds for order9 / tx9 with fallback
fb8: despite the cancel-pending status and the present refund payload,
its refund field is null. -/
def rec9 : OrderRecord :=
  { additionalFees := 0
    customTag := none
    transactionId := "tx9"
    name := "Item 9"
    itemId := "itm9"
    image := some (.strVal "img8")
    orderId := "ord9"
    purchase := ⟨none, some "2026-02-02T00:00:00.000Z", none, none, none⟩
    recordType := "automatic"
    listingDate := some "2026-02-02T00:00:00.000Z"
    sale := ⟨some "GBP", ⟨2026, 10, 2⟩, "eBay", 25, 1, "b9"⟩
    shipping := ⟨0, none, none, "", none, none⟩
    status := "CancelPending"
    storeType := "ebay"
    refund := none
    history := []
    lastModified := ⟨2026, 10, 9⟩ }

/-- The fixture orderA re-fetched once its status moved to Completed
while the stored copy is still Active. -/
def order7 : RawOrder := orderA

/-- The fixture orderA re-fetched with an unchanged Active status (used
for the frame counterexample, where only the stored name differs). -/
def order10 : RawOrder := { orderA with orderStatus := "Active" }

/-- Counter store of a user whose listings quota is exhausted while the
orders counter is empty, reset date in the future. -/
def store2 : IStore :=
  ⟨some ⟨some 30, some 0⟩,
    some ⟨some ⟨2026, 11, 1⟩, some 0, some 0, some 0, some 0⟩⟩

/-- Counter store whose reset date is yesterday relative to the fixture
current date. -/
def store3 : IStore :=
  ⟨some ⟨some 5, some 2⟩,
    some ⟨some ⟨2026, 10, 11⟩, some 40, some 3, some 100, some 7⟩⟩

/-- Counter store of a user over the orders quota, reset date in the
future. -/
def storeOver : IStore :=
  ⟨some ⟨some 0, some 0⟩,
    some ⟨some ⟨2026, 11, 1⟩, some 50, some 0, some 120, some 0⟩⟩

/-- Fixture current date. -/
def today0 : Date := ⟨2026, 10, 12⟩

end StoreManager

namespace StoreManager

/- ------------------------------------------------------------------ -/
/- Shared helper lemmas                                               -/
/- ------------------------------------------------------------------ -/

/-- A freshly built listing record never differs from itself, so the
diff detector drops re-fetched unchanged records. -/
theorem checkForListingChanges_self (x : ListingRecord) :
    checkForListingChanges x (some x) = false := by
  simp [checkForListingChanges]

/-- Claim C1.  The quota invariant fails on the listings walker: with
the automatic listings counter S0 = 0 and limit L = 2, a single upstream
page holding one new nonzero-quantity listing followed by two new
zero-quantity listings completes the walk normally and accumulates
newCount = 3, so S0 + newCount = 3 > 2 = L; the counter value that
set_current_no_listings would store exceeds the subscription limit.  The
zero-quantity records consume a slot and inflate new_items_count before
the quantity check skips them, bypassing the slot-exhaustion check. -/
theorem C1_listings_walker_overshoots_quota :
    fetchEbayListingsOnePage emptyInventory 2 0 [rawL1, rawL2, rawL3]
        = .ok [mkListingItem rawL1] 3 false []
      ∧ storedAutomaticAfter 0 3 = 3
      ∧ ¬ storedAutomaticAfter 0 3 ≤ 2
      ∧ updateDb [mkListingItem rawL1] false
          = .attemptedAddItemsTypeError [mkListingItem rawL1] := by
  refine ⟨?_, by norm_num [storedAutomaticAfter], by norm_num [storedAutomaticAfter], by
    norm_num [updateDb]⟩
  norm_num [ne_eq, Option.some_ne_none, fetchEbayListingsOnePage, processListings,
    processListingsGo, emptyInventory, rawL1, rawL2, rawL3, checkForListingChanges,
    mkListingItem]

/-- Claim C2, counterexample.  An inventory sync for a user whose
automatic listings count (30) has reached the listings limit (30), with
an empty orders counter and a future reset date, is not rejected: the
guard compares the orders count, so fetch_and_check_user proceeds and
the route goes on to issue the marketplace fetch.  The claim required a
pre-flight rejection for this input. -/
theorem C2_inventory_kind_not_rejected_cex :
    fetchUserInventoryAndOrdersCount today0 (some store2) = .ok ⟨30, 0, 0, 0⟩
      ∧ (30 : Int) ≤ 30
      ∧ fetchAndCheckUser today0 (some store2) 30 = .proceed 30
      ∧ endpointIssuesFetch (fetchAndCheckUser today0 (some store2) 30) = true := by
  refine ⟨?_, by norm_num, ?_, ?_⟩ <;>
    norm_num [fetchAndCheckUser, fetchUserInventoryAndOrdersCount, quotaGuardRejects,
      endpointIssuesFetch, today0, store2, Date.ltb]

/-- Claim C2 as amended: the pre-flight guard compares the ORDERS
automatic count (for either item kind) against the requested kind's
automatic limit; when the count has reached the limit the sync is
rejected before any marketplace fetch, surfaced as a 500 response that
wraps the 400 quota message rather than as a genuine 4xx. -/
theorem C2_quota_guard_amended (today : Date) (store : Option IStore)
    (counts : UserCounts) (L : Int)
    (h : fetchUserInventoryAndOrdersCount today store = .ok counts) :
    ((fetchAndCheckUser today store L = .errorResponse 500 true)
        ↔ L ≤ counts.automaticOrders)
      ∧ (L ≤ counts.automaticOrders →
          endpointIssuesFetch (fetchAndCheckUser today store L) = false) := by
  by_cases hL : L ≤ counts.automaticOrders
  · constructor
    · simp [fetchAndCheckUser, h, quotaGuardRejects, hL]
    · intro _
      simp [fetchAndCheckUser, h, quotaGuardRejects, hL, endpointIssuesFetch]
  · constructor
    · constructor
      · intro hc
        have : fetchAndCheckUser today store L = .proceed L := by
          simp [fetchAndCheckUser, h, quotaGuardRejects, hL]
        rw [this] at hc
        exact CheckUserOutcome.noConfusion hc
      · intro hc
        exact absurd hc hL
    · intro hc
      exact absurd hc hL

/-- Claim C2, witness for the amended theorem at a concrete over-quota
user (orders automatic count 50, limit 30). -/
theorem C2_quota_guard_amended_witness :
    (fetchAndCheckUser today0 (some storeOver) 30 = .errorResponse 500 true)
      ∧ endpointIssuesFetch (fetchAndCheckUser today0 (some storeOver) 30) = false := by
  have h : fetchUserInventoryAndOrdersCount today0 (some storeOver)
      = .ok ⟨0, 0, 50, 0⟩ := by
    norm_num [fetchUserInventoryAndOrdersCount, today0, storeOver, Date.ltb]
  have hmain := C2_quota_guard_amended today0 (some storeOver) ⟨0, 0, 50, 0⟩ 30 h
  exact ⟨hmain.1.mpr (by norm_num), hmain.2 (by norm_num)⟩

/-- Claim C3.  When resetDate is yesterday (2026-10-11) relative to now
(2026-10-12), the sync does not transition the counter state machine to
the reset state: fetch_user_inventory_and_orders_count enters its reset
branch, which raises AttributeError (IStore has no items method; the
inner reset call would also pass an extra positional argument), so
fetch_and_check_user swallows the exception and the whole sync aborts
with a 500 - the counters are never zeroed and resetDate is never
advanced. -/
theorem C3_reset_branch_crashes_eval :
    Date.ltb ⟨2026, 10, 11⟩ today0 = true
      ∧ fetchUserInventoryAndOrdersCount today0 (some store3)
          = .error .attributeError
      ∧ fetchAndCheckUser today0 (some store3) 30 = .errorResponse 500 false := by
  refine ⟨by norm_num [Date.ltb, today0], ?_, ?_⟩ <;>
    norm_num [fetchAndCheckUser, fetchUserInventoryAndOrdersCount, quotaGuardRejects,
      today0, store3, Date.ltb]

/-- Slot accounting of the orders walker: across a run of the
process_orders loop, the slots consumed equal the new plus old records
accumulated (one per db-miss record, none for modified records). -/
theorem processOrdersGo_accounting (env : OrdersEnv) :
    ∀ (pairs : List (RawOrder × RawTransaction)) (items : List OrderRecord)
      (n o s : Int) (its : List OrderRecord) (n1 o1 s1 : Int),
      processOrdersGo env pairs items n o s = .ok (its, n1, o1, s1) →
      s - s1 = (n1 - n) + (o1 - o) := by
  intro pairs
  induction pairs with
  | nil =>
    intro items n o s its n1 o1 s1 h
    simp [processOrdersGo] at h
    omega
  | cons p rest ih =>
    obtain ⟨ord, t⟩ := p
    intro items n o s its n1 o1 s1 h
    simp only [processOrdersGo] at h
    cases hdb : env.dbOrder t.transactionID with
    | some dbt =>
      simp only [hdb] at h
      split at h
      · simp at h
        omega
      · have := ih _ _ _ _ _ _ _ _ h
        omega
    | none =>
      simp only [hdb] at h
      cases hnew : handleNewOrder (env.dbItem t.itemID) (env.fallback t.itemID) ord t with
      | error e =>
        simp only [hnew] at h
        exact absurd h (by simp)
      | ok item =>
        simp only [hnew] at h
        by_cases hm : wasOrderCreatedInCurrentMonth env.now item = true
        · simp [hm] at h
          split at h
          · simp at h
            omega
          · have := ih _ _ _ _ _ _ _ _ h
            omega
        · simp [hm] at h
          split at h
          · simp at h
            omega
          · have := ih _ _ _ _ _ _ _ _ h
            omega

/-- The orders walker never drives the slot count below zero when it
starts positive: it stops at the record that exhausts the quota. -/
theorem processOrdersGo_slots_nonneg (env : OrdersEnv) :
    ∀ (pairs : List (RawOrder × RawTransaction)) (items : List OrderRecord)
      (n o s : Int) (its : List OrderRecord) (n1 o1 s1 : Int), 0 < s →
      processOrdersGo env pairs items n o s = .ok (its, n1, o1, s1) →
      0 ≤ s1 := by
  intro pairs
  induction pairs with
  | nil =>
    intro items n o s its n1 o1 s1 hs h
    simp [processOrdersGo] at h
    omega
  | cons p rest ih =>
    obtain ⟨ord, t⟩ := p
    intro items n o s its n1 o1 s1 hs h
    simp only [processOrdersGo] at h
    cases hdb : env.dbOrder t.transactionID with
    | some dbt =>
      simp only [hdb] at h
      split at h
      · simp at h
        omega
      · exact ih _ _ _ _ _ _ _ _ hs h
    | none =>
      simp only [hdb] at h
      cases hnew : handleNewOrder (env.dbItem t.itemID) (env.fallback t.itemID) ord t with
      | error e =>
        simp only [hnew] at h
        exact absurd h (by simp)
      | ok item =>
        simp only [hnew] at h
        by_cases hm : wasOrderCreatedInCurrentMonth env.now item = true
        · simp [hm] at h
          split at h
          · simp at h
            omega
          · rename_i hstop
            exact ih _ _ _ _ _ _ _ _ (by omega) h
        · simp [hm] at h
          split at h
          · simp at h
            omega
          · rename_i hstop
            exact ih _ _ _ _ _ _ _ _ (by omega) h

/-- Claim C4, counterexample.  In the listings walker with one slot
left, a page holding a new zero-quantity record followed by a new
nonzero-quantity record refutes the mid-page stop: processing the first
record alone already drives the slot count to 0 (first equality), yet on
the full page the second record is still classified, enriched and
included in the result items (second equality and membership), because
the zero-quantity skip path bypasses the slot-exhaustion check. -/
theorem C4_record_processed_after_exhaustion_cex :
    processListings emptyInventory [rawL2] 1 = .normal [] 1 0 false []
      ∧ processListings emptyInventory [rawL2, rawL1] 1
          = .early [mkListingItem rawL1] 2 (-1) []
      ∧ mkListingItem rawL1
          ∈ (processListings emptyInventory [rawL2, rawL1] 1).itemsOf := by
  have h2 : processListings emptyInventory [rawL2, rawL1] 1
      = .early [mkListingItem rawL1] 2 (-1) [] := by
    norm_num [ne_eq, Option.some_ne_none, processListings, processListingsGo,
      emptyInventory, rawL1, rawL2, checkForListingChanges, mkListingItem]
  refine ⟨?_, h2, ?_⟩
  · norm_num [ne_eq, Option.some_ne_none, processListings, processListingsGo,
      emptyInventory, rawL2, checkForListingChanges]
  · rw [h2]
    simp [PLResult.itemsOf]

/-- Claim C4 as amended: in the orders walker the slot count is
decremented by exactly 1 per record the diff detector classifies as new
(a db miss) and unchanged for modified records - the slots consumed
equal the accumulated new+old count; starting positive it never goes
below zero; and once a record brings the count to 0 the loop returns at
that record, so no later record of the page is examined.  In the
listings walker the same stop fails when the exhausting record takes the
zero-quantity skip path (see the counterexample). -/
theorem C4_slot_allocator_amended :
    (∀ (env : OrdersEnv) (pairs : List (RawOrder × RawTransaction))
        (items : List OrderRecord) (n o s : Int) (its : List OrderRecord)
        (n1 o1 s1 : Int),
        processOrdersGo env pairs items n o s = .ok (its, n1, o1, s1) →
        s - s1 = (n1 - n) + (o1 - o))
      ∧ (∀ (env : OrdersEnv) (pairs : List (RawOrder × RawTransaction))
          (items : List OrderRecord) (n o s : Int) (its : List OrderRecord)
          (n1 o1 s1 : Int), 0 < s →
          processOrdersGo env pairs items n o s = .ok (its, n1, o1, s1) →
          0 ≤ s1)
      ∧ (∀ (env : OrdersEnv) (ord : RawOrder) (t : RawTransaction)
          (rest : List (RawOrder × RawTransaction)) (items : List OrderRecord)
          (n o s : Int) (its : List OrderRecord) (n1 o1 s1 : Int),
          processOrdersGo env [(ord, t)] items n o s = .ok (its, n1, o1, s1) →
          s1 ≤ 0 →
          processOrdersGo env ((ord, t) :: rest) items n o s
            = .ok (its, n1, o1, s1)) := by
  refine ⟨fun env => processOrdersGo_accounting env,
    fun env => processOrdersGo_slots_nonneg env, ?_⟩
  intro env ord t rest items n o s its n1 o1 s1 h hle
  simp only [processOrdersGo] at h ⊢
  cases hdb : env.dbOrder t.transactionID with
  | some dbt =>
    simp only [hdb] at h ⊢
    split at h
    · rename_i hc
      rw [if_pos hc]
      exact h
    · rename_i hc
      simp [processOrdersGo] at h
      omega
  | none =>
    simp only [hdb] at h ⊢
    cases hnew : handleNewOrder (env.dbItem t.itemID) (env.fallback t.itemID) ord t with
    | error e =>
      simp only [hnew] at h ⊢
      exact h
    | ok item =>
      simp only [hnew] at h ⊢
      split at h
      · rename_i hc
        rw [if_pos hc]
        exact h
      · rename_i hc
        simp [processOrdersGo] at h
        omega

/-- Claim C4, witness for the amended theorem: a first run over a page
holding the fixture order twice with one slot consumes the slot on the
first record (accounting and nonnegativity), and the duplicate pair is
never examined (the stop conjunct). -/
theorem C4_slot_allocator_amended_witness :
    ((1 : Int) - 0 = (1 - 0) + (0 - 0))
      ∧ (0 : Int) ≤ 0
      ∧ processOrdersGo envFirstRun [(orderA, txA), (orderA, txA)] [] 0 0 1
          = .ok ([recA], 1, 0, 0) := by
  have h1 : processOrdersGo envFirstRun [(orderA, txA)] [] 0 0 1
      = .ok ([recA], 1, 0, 0) := by
    norm_num [ne_eq, Option.some_ne_none, processOrdersGo, envFirstRun, invWithX,
      handleNewOrder, getListingForOrder, extractShippingDetails, extractShippingCost,
      extractRefundData, wasOrderCreatedInCurrentMonth, orderA, txA, trackA, rawLX1,
      mkListingItem, recA, round2, roundHalfEven, Date.toEpochDays]
  exact ⟨C4_slot_allocator_amended.1 envFirstRun [(orderA, txA)] [] 0 0 1 [recA] 1 0 0 h1,
    C4_slot_allocator_amended.2.1 envFirstRun [(orderA, txA)] [] 0 0 1 [recA] 1 0 0
      (by norm_num) h1,
    C4_slot_allocator_amended.2.2 envFirstRun orderA txA [(orderA, txA)] [] 0 0 1
      [recA] 1 0 0 h1 (by norm_num)⟩

/-- Write-set invariant of the listings walker: a record the diff
detector classifies as new (absent from the store) with zero quantity is
never added to the accumulated items, page after page. -/
theorem processListingsGo_no_new_zero_quantity
    (dbMap : String → Option ListingRecord) :
    ∀ (raws : List RawListing) (items : List ListingRecord) (cnt slots : Int)
      (force : Bool) (removed : List String),
      (∀ x ∈ items, dbMap x.itemId = none → x.quantity ≠ 0) →
      ∀ x ∈ (processListingsGo dbMap raws items cnt slots force removed).itemsOf,
        dbMap x.itemId = none → x.quantity ≠ 0 := by
  intro raws
  induction raws with
  | nil =>
    intro items cnt slots force removed hinv x hx
    exact hinv x (by simpa [processListingsGo, PLResult.itemsOf] using hx)
  | cons l rest ih =>
    intro items cnt slots force removed hinv x hx
    simp only [processListingsGo] at hx
    by_cases h1 : l.quantityAvailable = 0 ∧ dbMap l.itemID ≠ none
    · have hinv1 : ∀ y ∈ (if checkForListingChanges (mkListingItem l) (dbMap l.itemID)
            then items ++ [mkListingItem l] else items),
          dbMap y.itemId = none → y.quantity ≠ 0 := by
        intro y hy
        split at hy
        · rcases List.mem_append.mp hy with hy1 | hy2
          · exact hinv y hy1
          · simp only [List.mem_singleton] at hy2
            subst hy2
            intro hnone
            exact absurd (by simpa [mkListingItem] using hnone) h1.2
        · exact hinv y hy
      rw [if_pos h1] at hx
      simp only [if_neg h1.2] at hx
      by_cases hs : slots ≤ 0
      · rw [if_pos hs] at hx
        simp only [PLResult.itemsOf] at hx
        exact hinv1 x hx
      · rw [if_neg hs] at hx
        exact ih _ _ _ _ _ hinv1 x hx
    · rw [if_neg h1] at hx
      by_cases h2 : l.quantityAvailable = 0
      · rw [if_pos h2] at hx
        exact ih _ _ _ _ _ hinv x hx
      · have hinv1 : ∀ y ∈ (if checkForListingChanges (mkListingItem l) (dbMap l.itemID)
              then items ++ [mkListingItem l] else items),
            dbMap y.itemId = none → y.quantity ≠ 0 := by
          intro y hy
          split at hy
          · rcases List.mem_append.mp hy with hy1 | hy2
            · exact hinv y hy1
            · simp only [List.mem_singleton] at hy2
              subst hy2
              intro _
              simpa [mkListingItem] using h2
          · exact hinv y hy
        rw [if_neg h2] at hx
        by_cases hs : (if dbMap l.itemID = none then slots - 1 else slots) ≤ 0
        · rw [if_pos hs] at hx
          simp only [PLResult.itemsOf] at hx
          exact hinv1 x hx
        · rw [if_neg hs] at hx
          exact ih _ _ _ _ _ hinv1 x hx

/-- Removal-list monotonicity of the listings walker: when a walk over
a page returns normally, every id already recorded for removal at entry
is still recorded in the final result. -/
theorem processListingsGo_removed_mono (dbMap : String → Option ListingRecord) :
    ∀ (raws : List RawListing) (items : List ListingRecord) (cnt slots : Int)
      (force : Bool) (removed : List String) (its : List ListingRecord)
      (c s : Int) (f : Bool) (rem : List String),
      processListingsGo dbMap raws items cnt slots force removed
        = .normal its c s f rem →
      ∀ x ∈ removed, x ∈ rem := by
  intro raws
  induction raws with
  | nil =>
    intro items cnt slots force removed its c s f rem h x hx
    simp [processListingsGo] at h
    rcases h with ⟨-, -, -, -, rfl⟩
    exact hx
  | cons l rest ih =>
    intro items cnt slots force removed its c s f rem h x hx
    simp only [processListingsGo] at h
    by_cases h1 : l.quantityAvailable = 0 ∧ dbMap l.itemID ≠ none
    · rw [if_pos h1] at h
      simp only [if_neg h1.2] at h
      by_cases hs : slots ≤ 0
      · rw [if_pos hs] at h
        exact absurd h (by simp)
      · rw [if_neg hs] at h
        exact ih _ _ _ _ _ _ _ _ _ _ h x (List.mem_append.mpr (Or.inl hx))
    · rw [if_neg h1] at h
      by_cases h2 : l.quantityAvailable = 0
      · rw [if_pos h2] at h
        exact ih _ _ _ _ _ _ _ _ _ _ h x hx
      · rw [if_neg h2] at h
        by_cases hs : (if dbMap l.itemID = none then slots - 1 else slots) ≤ 0
        · rw [if_pos hs] at h
          exact absurd h (by simp)
        · rw [if_neg hs] at h
          exact ih _ _ _ _ _ _ _ _ _ _ h x hx

/-- In a listings walk that returns normally - so every record of the
page was processed - each zero-quantity record with a stored copy has
its id recorded in the removal list: db.remove_item was called for
it. -/
theorem processListingsGo_zero_qty_removed (dbMap : String → Option ListingRecord) :
    ∀ (raws : List RawListing) (items : List ListingRecord) (cnt slots : Int)
      (force : Bool) (removed : List String) (its : List ListingRecord)
      (c s : Int) (f : Bool) (rem : List String),
      processListingsGo dbMap raws items cnt slots force removed
        = .normal its c s f rem →
      ∀ l ∈ raws, l.quantityAvailable = 0 → dbMap l.itemID ≠ none →
        l.itemID ∈ rem := by
  intro raws
  induction raws with
  | nil =>
    intro items cnt slots force removed its c s f rem h l hl
    exact absurd hl (List.not_mem_nil l)
  | cons a rest ih =>
    intro items cnt slots force removed its c s f rem h l hl hq hdb
    simp only [processListingsGo] at h
    rcases List.mem_cons.mp hl with rfl | hl2
    · rw [if_pos ⟨hq, hdb⟩] at h
      simp only [if_neg hdb] at h
      by_cases hs : slots ≤ 0
      · rw [if_pos hs] at h
        exact absurd h (by simp)
      · rw [if_neg hs] at h
        exact processListingsGo_removed_mono dbMap rest _ _ _ _ _ _ _ _ _ _ h
          l.itemID (by simp)
    · by_cases h1 : a.quantityAvailable = 0 ∧ dbMap a.itemID ≠ none
      · rw [if_pos h1] at h
        simp only [if_neg h1.2] at h
        by_cases hs : slots ≤ 0
        · rw [if_pos hs] at h
          exact absurd h (by simp)
        · rw [if_neg hs] at h
          exact ih _ _ _ _ _ _ _ _ _ _ h l hl2 hq hdb
      · rw [if_neg h1] at h
        by_cases h2 : a.quantityAvailable = 0
        · rw [if_pos h2] at h
          exact ih _ _ _ _ _ _ _ _ _ _ h l hl2 hq hdb
        · rw [if_neg h2] at h
          by_cases hs : (if dbMap a.itemID = none then slots - 1 else slots) ≤ 0
          · rw [if_pos hs] at h
            exact absurd h (by simp)
          · rw [if_neg hs] at h
            exact ih _ _ _ _ _ _ _ _ _ _ h l hl2 hq hdb

/-- Claim C5.  A zero-quantity record that is new (no stored copy)
never enters the write set, so it is never created (first conjunct); a
zero-quantity record with a stored copy is passed to db.remove_item, and
since update_db can apply no upsert - its add_items call raises
TypeError on the extra argument before writing any document - the
record's id is absent from the post-sync store, for every zero-quantity
record of a completed walk (second conjunct); and
decrease_listing_quantity deletes the stored listing when an order
decrement lands exactly on zero (third conjunct). -/
theorem C5_zero_quantity_absent :
    (∀ (dbMap : String → Option ListingRecord) (raws : List RawListing)
        (items : List ListingRecord) (cnt slots : Int) (force : Bool)
        (removed : List String),
        (∀ x ∈ items, dbMap x.itemId = none → x.quantity ≠ 0) →
        ∀ x ∈ (processListingsGo dbMap raws items cnt slots force removed).itemsOf,
          dbMap x.itemId = none → x.quantity ≠ 0)
      ∧ (∀ (pre : String → Option ListingRecord) (page : List RawListing)
          (slots : Int) (its : List ListingRecord) (c s : Int) (f : Bool)
          (rem : List String),
          processListings pre page slots = .normal its c s f rem →
          ∀ l ∈ page, l.quantityAvailable = 0 →
            listingsStoreAfterSync pre page slots l.itemID = none)
      ∧ (∀ cur q : Int, cur - q = 0 →
          decreaseListingQuantity (some cur) q = .deleted) := by
  refine ⟨fun dbMap => processListingsGo_no_new_zero_quantity dbMap, ?_, ?_⟩
  · intro pre page slots its c s f rem h l hl hq
    simp only [listingsStoreAfterSync]
    by_cases hdb : pre l.itemID = none
    · split
      · rfl
      · exact hdb
    · have hid : l.itemID ∈ rem :=
        processListingsGo_zero_qty_removed pre page [] 0 slots false [] its c s f
          rem (by simpa [processListings] using h) l hl hq hdb
      have hid2 : l.itemID ∈ (processListings pre page slots).removedOf := by
        rw [h]
        simpa [PLResult.removedOf] using hid
      rw [if_pos hid2]
  · intro cur q h
    simp [decreaseListingQuantity, h]

/-- Claim C5, witness: re-observing the stored itmx listing at quantity
0 leaves itmx absent from the post-sync store; the new nonzero-quantity
fixture record indeed has nonzero quantity; an exact decrement (5 - 5)
deletes the stored listing. -/
theorem C5_zero_quantity_absent_witness :
    listingsStoreAfterSync invWithX [rawLX0] 5 "itmx" = none
      ∧ (mkListingItem rawL1).quantity ≠ 0
      ∧ decreaseListingQuantity (some 5) 5 = .deleted := by
  have hrun : processListings invWithX [rawLX0] 5
      = .normal [mkListingItem rawLX0] (-1) 5 true ["itmx"] := by
    norm_num [ne_eq, Option.some_ne_none, processListings, processListingsGo,
      invWithX, rawLX0, rawLX1, checkForListingChanges, mkListingItem, round2,
      roundHalfEven]
  have hmem : mkListingItem rawL1
      ∈ (processListingsGo emptyInventory [rawL1] [] 0 5 false []).itemsOf := by
    norm_num [ne_eq, Option.some_ne_none, processListingsGo, emptyInventory, rawL1,
      checkForListingChanges, mkListingItem, PLResult.itemsOf]
  have habs := C5_zero_quantity_absent.2.1 invWithX [rawLX0] 5
    [mkListingItem rawLX0] (-1) 5 true ["itmx"] hrun rawLX0 (by simp)
    (by norm_num [rawLX0, rawLX1])
  exact ⟨by simpa [rawLX0, rawLX1] using habs,
    C5_zero_quantity_absent.1 emptyInventory [rawL1] [] 0 5 false [] (by simp)
      (mkListingItem rawL1) hmem (by norm_num [emptyInventory]),
    C5_zero_quantity_absent.2.2 5 5 (by norm_num)⟩

/-- A page whose every record is already stored with identical content
and nonzero quantity leaves the listings walker state completely
unchanged: no write-set entry, no count, no slot consumed, no removal. -/
theorem processListingsGo_unchanged (dbMap : String → Option ListingRecord) :
    ∀ (raws : List RawListing) (items : List ListingRecord) (cnt slots : Int)
      (force : Bool) (removed : List String), 0 < slots →
      (∀ l ∈ raws, dbMap l.itemID = some (mkListingItem l)
        ∧ l.quantityAvailable ≠ 0) →
      processListingsGo dbMap raws items cnt slots force removed
        = .normal items cnt slots force removed := by
  intro raws
  induction raws with
  | nil =>
    intro items cnt slots force removed hs hra
    simp [processListingsGo]
  | cons l rest ih =>
    intro items cnt slots force removed hs hra
    obtain ⟨hdb, hq⟩ := hra l (by simp)
    have hra2 : ∀ l2 ∈ rest, dbMap l2.itemID = some (mkListingItem l2)
        ∧ l2.quantityAvailable ≠ 0 := fun l2 hl2 => hra l2 (by simp [hl2])
    have hdbn : ¬ dbMap l.itemID = none := by simp [hdb]
    simp only [processListingsGo]
    rw [if_neg (by tauto : ¬(l.quantityAvailable = 0 ∧ dbMap l.itemID ≠ none))]
    rw [if_neg hq]
    simp only [if_neg hdbn]
    rw [hdb, checkForListingChanges_self]
    simp only [Bool.false_eq_true, if_false]
    rw [if_neg (by omega : ¬ slots ≤ 0)]
    exact ih items cnt slots force removed hs hra2

/-- Re-enriching a raw order against the record its own first
enrichment produced recomputes identical values, so the modification
path finds no change and returns the stored record untouched (the
specification round-trip property at the record level). -/
theorem handleNewOrder_roundTrip (dbItem : Option ListingRecord)
    (fallback : Option FallbackDetails) (ord : RawOrder) (t : RawTransaction)
    (rec : OrderRecord) (h : handleNewOrder dbItem fallback ord t = .ok rec) :
    handleModifiedOrder ord t rec = rec := by
  simp only [handleNewOrder] at h
  cases hld : getListingForOrder dbItem fallback with
  | none =>
    rw [hld] at h
    exact absurd h (by simp)
  | some ld =>
    rw [hld] at h
    injection h with hrec
    subst hrec
    simp [handleModifiedOrder]

/-- Claim C6, counterexample.  An immediate second orders run over the
identical upstream response re-enriches the stored record to an
identical value (first conjunct), yet process_orders still appends it to
the write set (second conjunct) because handle_modified_order returns
the record even when changes_found stays false, so update_db does not
skip: it issues the (faulting) add_items call (third conjunct).  The
claim required an empty write set and skipped upserts. -/
theorem C6_second_run_not_skipped_cex :
    handleModifiedOrder orderA txA recA = recA
      ∧ processOrders envSecondRun [orderA] 0 0 10 = .ok ([recA], 0, 0, 10)
      ∧ updateDb [recA] false = .attemptedAddItemsTypeError [recA] := by
  refine ⟨?_, ?_, by norm_num [updateDb]⟩
  · norm_num [ne_eq, Option.some_ne_none, handleModifiedOrder, extractShippingDetails,
      extractShippingCost, extractRefundData, orderA, txA, trackA, recA, round2,
      roundHalfEven, Date.toEpochDays]
  · norm_num [ne_eq, Option.some_ne_none, processOrders, processOrdersGo, orderPairs,
      envSecondRun, ordersWithA, handleModifiedOrder, extractShippingDetails,
      extractShippingCost, extractRefundData, orderA, txA, trackA, recA, round2,
      roundHalfEven, Date.toEpochDays]

/-- Claim C6 as amended: (i) a second identical listings run whose
records all have nonzero quantity and identical stored copies produces
an empty write set, no removals and no force_update, and update_db
skips the Persistence Gateway entirely; (ii) if the page holds a
zero-quantity record whose stored copy survived (as the over-decrement
clamp of decrease_listing_quantity can leave one), the second run is
not write-free: remove_item is called again, the walker reports
new_items_count -1 and force_update, so update_db does not skip but
issues the (faulting) add_items call despite the empty write set;
(iii) a second identical orders run recomputes every stored record to
an identical value (round-trip equality), yet the record is appended to
the write set, so the orders add_items call is issued with unchanged
content rather than skipped - the no-op diff is computed but discarded.
No counter value changes in any of these runs, every counter write
sitting behind the faulting add_items call. -/
theorem C6_idempotence_amended :
    (∀ (dbMap : String → Option ListingRecord) (raws : List RawListing)
        (slots : Int), 0 < slots →
        (∀ l ∈ raws, dbMap l.itemID = some (mkListingItem l)
          ∧ l.quantityAvailable ≠ 0) →
        processListings dbMap raws slots = .normal [] 0 slots false []
          ∧ updateDb ([] : List ListingRecord) false = .skipped)
      ∧ (∀ (dbMap : String → Option ListingRecord) (l : RawListing)
          (slots : Int), 0 < slots →
          dbMap l.itemID = some (mkListingItem l) → l.quantityAvailable = 0 →
          processListings dbMap [l] slots
              = .normal [] (-1) slots true [l.itemID]
            ∧ updateDb ([] : List ListingRecord) true
                = .attemptedAddItemsTypeError [])
      ∧ (∀ (dbItem : Option ListingRecord) (fallback : Option FallbackDetails)
          (ord : RawOrder) (t : RawTransaction) (rec : OrderRecord),
          handleNewOrder dbItem fallback ord t = .ok rec →
          handleModifiedOrder ord t rec = rec) := by
  refine ⟨?_, ?_, ?_⟩
  · intro dbMap raws slots hs hra
    exact ⟨processListingsGo_unchanged dbMap raws [] 0 slots false [] hs hra,
      by norm_num [updateDb]⟩
  · intro dbMap l slots hs hdb hq
    refine ⟨?_, by norm_num [updateDb]⟩
    have hdbn : ¬ dbMap l.itemID = none := by simp [hdb]
    simp only [processListings, processListingsGo]
    rw [if_pos ⟨hq, hdbn⟩]
    simp only [if_neg hdbn]
    rw [hdb, checkForListingChanges_self]
    simp only [Bool.false_eq_true, if_false]
    rw [if_neg (by omega : ¬ slots ≤ 0)]
    norm_num [processListingsGo]
  · exact fun dbItem fallback ord t rec h =>
      handleNewOrder_roundTrip dbItem fallback ord t rec h

/-- Claim C6, witness for the amended theorem: a second listings run
over the stored nonzero fixture page writes nothing; a second run over
the stored zero-quantity itmx copy removes it again with force_update
set and a non-skipped update_db; and the fixture order round-trips to
itself. -/
theorem C6_idempotence_amended_witness :
    (processListings invWithX [rawLX1] 5 = .normal [] 0 5 false []
        ∧ updateDb ([] : List ListingRecord) false = .skipped)
      ∧ (processListings invWithXZero [rawLX0] 5
            = .normal [] (-1) 5 true [rawLX0.itemID]
          ∧ updateDb ([] : List ListingRecord) true
              = .attemptedAddItemsTypeError [])
      ∧ handleModifiedOrder orderA txA recA = recA := by
  refine ⟨C6_idempotence_amended.1 invWithX [rawLX1] 5 (by norm_num) ?_,
    C6_idempotence_amended.2.1 invWithXZero rawLX0 5 (by norm_num)
      (by simp [invWithXZero, rawLX0, rawLX1]) (by norm_num [rawLX0, rawLX1]),
    C6_idempotence_amended.2.2 (invWithX "itmx") none orderA txA recA ?_⟩
  · intro l hl
    simp only [List.mem_singleton] at hl
    subst hl
    exact ⟨by norm_num [invWithX, rawLX1], by norm_num [rawLX1]⟩
  · norm_num [ne_eq, Option.some_ne_none, handleNewOrder, getListingForOrder,
      extractShippingDetails, extractShippingCost, extractRefundData, orderA, txA,
      trackA, invWithX, rawLX1, mkListingItem, recA, round2, roundHalfEven,
      Date.toEpochDays]

/-- Claim C7.  Re-fetching a stored order whose status moved from
Active to Completed leaves its history untouched: handle_modified_order
updates status (and lastModified) but never appends an event, although
its own closing comment says history should be updated alongside
lastModified - no "Completed" event is added (the claim required exactly
one) and the "Sold" event stays unduplicated only because nothing is
written at all. -/
theorem C7_history_never_appended_eval :
    storedRec7.status = "Active"
      ∧ storedRec7.history = [soldEvent]
      ∧ soldEvent.title = "Sold"
      ∧ (handleModifiedOrder order7 txA storedRec7).status = "Completed"
      ∧ (handleModifiedOrder order7 txA storedRec7).history = [soldEvent] := by
  refine ⟨by norm_num [storedRec7, recA], by norm_num [storedRec7, recA],
    by norm_num [soldEvent], ?_, ?_⟩ <;>
    norm_num [ne_eq, Option.some_ne_none, handleModifiedOrder, order7,
      extractShippingDetails, extractShippingCost, extractRefundData, orderA, txA,
      trackA, storedRec7, recA, soldEvent, round2, roundHalfEven, Date.toEpochDays] <;>
    decide

/-- Claim C8, counterexample.  For a completed order paying 100 with
sale price 80, shipping 5 and a 10-unit tax component in the raw
payload, the code computes additionalFees = round(100 - 80 - 5, 2) = 15,
while the claim formula round(totalPaid - salePrice - shippingFees -
taxAmount, 2) yields 5: the enrichment never reads or subtracts any tax
amount. -/
theorem C8_tax_term_missing_cex :
    handleNewOrder none (some fb8) order8 tx8 = .ok rec8
      ∧ rec8.additionalFees = 15
      ∧ order8.taxAmount = 10
      ∧ specAdditionalFees order8.amountPaidValue rec8.sale.price
          rec8.shipping.fees order8.taxAmount false = 5
      ∧ rec8.additionalFees ≠ specAdditionalFees order8.amountPaidValue
          rec8.sale.price rec8.shipping.fees order8.taxAmount false := by
  refine ⟨?_, by norm_num [rec8], by norm_num [order8], ?_, ?_⟩
  · norm_num [ne_eq, Option.some_ne_none, handleNewOrder, getListingForOrder,
      extractShippingDetails, extractShippingCost, extractRefundData, order8, tx8,
      fb8, rec8, round2, roundHalfEven, Date.toEpochDays] <;> decide
  · norm_num [specAdditionalFees, order8, rec8, round2, roundHalfEven]
  · norm_num [specAdditionalFees, order8, rec8, round2, roundHalfEven]

/-- Claim C8 as amended: for every enriched order, salePrice is the
unit transaction price times the quantity sold, and additionalFees is
round(totalPaid - salePrice - shippingFees, 2) with no tax term, clamped
to 0 when the order is cancelled. -/
theorem C8_financials_amended (dbItem : Option ListingRecord)
    (fallback : Option FallbackDetails) (ord : RawOrder) (t : RawTransaction)
    (rec : OrderRecord) (h : handleNewOrder dbItem fallback ord t = .ok rec) :
    rec.sale.price = (t.quantityPurchased : ℚ) * t.transactionPriceValue
      ∧ rec.additionalFees
          = (if ord.orderStatus = "Cancelled" then 0
             else round2 (ord.amountPaidValue - rec.sale.price
               - rec.shipping.fees)) := by
  simp only [handleNewOrder] at h
  cases hld : getListingForOrder dbItem fallback with
  | none =>
    rw [hld] at h
    exact absurd h (by simp)
  | some ld =>
    rw [hld] at h
    injection h with hrec
    subst hrec
    refine ⟨rfl, ?_⟩
    by_cases hc : ord.orderStatus = "Cancelled" <;> simp [hc]

/-- Claim C8, witness for the amended theorem at the concrete fixture
order (not cancelled, fees 15). -/
theorem C8_financials_amended_witness :
    rec8.sale.price = (tx8.quantityPurchased : ℚ) * tx8.transactionPriceValue
      ∧ rec8.additionalFees
          = (if order8.orderStatus = "Cancelled" then 0
             else round2 (order8.amountPaidValue - rec8.sale.price
               - rec8.shipping.fees)) := by
  refine C8_financials_amended none (some fb8) order8 tx8 rec8 ?_
  norm_num [ne_eq, Option.some_ne_none, handleNewOrder, getListingForOrder,
    extractShippingDetails, extractShippingCost, extractRefundData, order8, tx8,
    fb8, rec8, round2, roundHalfEven, Date.toEpochDays] <;> decide

/-- Claim C9, counterexample.  A CancelPending order carrying a refund
payload gets a null refund: the handlers call extract_refund_data with
is_cancelled = (status == "Cancelled") = False, and the extractor
returns None immediately when that flag is false, so no refund object is
ever produced for a cancel-pending order.  The claim required a refund
object exactly when the status indicates cancellation OR
cancel-pending. -/
theorem C9_cancel_pending_refund_null_cex :
    order9.orderStatus = "CancelPending"
      ∧ order9.refundInfo = some ri9
      ∧ handleNewOrder none (some fb8) order9 tx9 = .ok rec9
      ∧ rec9.refund = none := by
  refine ⟨by norm_num [order9], by norm_num [order9], ?_, by norm_num [rec9]⟩
  norm_num [ne_eq, Option.some_ne_none, handleNewOrder, getListingForOrder,
    extractShippingDetails, extractShippingCost, extractRefundData, order9, tx9,
    fb8, rec9, ri9, round2, roundHalfEven, Date.toEpochDays] <;> decide

/-- Claim C9 as amended: a refund object is computed exactly when the
order status is Cancelled (CancelPending always yields null); an absent
refund payload yields null, never an error; and when computed the
object carries status, type, absolute amount, currency (default GBP),
refundedTo, refundedAt and referenceId. -/
theorem C9_refund_amended (dbItem : Option ListingRecord)
    (fallback : Option FallbackDetails) (ord : RawOrder) (t : RawTransaction)
    (rec : OrderRecord) (h : handleNewOrder dbItem fallback ord t = .ok rec) :
    rec.refund = (if ord.orderStatus = "Cancelled"
        then extractRefundData ord.refundInfo true else none)
      ∧ (∀ b : Bool, extractRefundData none b = none)
      ∧ (∀ ri : RefundInfo, extractRefundData (some ri) true
          = some ⟨ri.refundStatus, ri.refundType, |ri.refundAmountValue|,
              ri.refundCurrency.getD "GBP", ri.refundTo, ri.refundTime,
              ri.referenceId⟩) := by
  refine ⟨?_, fun b => by cases b <;> rfl, fun ri => rfl⟩
  simp only [handleNewOrder] at h
  cases hld : getListingForOrder dbItem fallback with
  | none =>
    rw [hld] at h
    exact absurd h (by simp)
  | some ld =>
    rw [hld] at h
    injection h with hrec
    subst hrec
    by_cases hc : ord.orderStatus = "Cancelled"
    · simp [hc]
    · by_cases hp : ord.orderStatus = "CancelPending"
      · simp [hc, hp, extractRefundData]
      · simp [hc, hp]

/-- Claim C9, witness for the amended theorem at the concrete
cancel-pending fixture order. -/
theorem C9_refund_amended_witness :
    rec9.refund = (if order9.orderStatus = "Cancelled"
        then extractRefundData order9.refundInfo true else none)
      ∧ (∀ b : Bool, extractRefundData none b = none)
      ∧ (∀ ri : RefundInfo, extractRefundData (some ri) true
          = some ⟨ri.refundStatus, ri.refundType, |ri.refundAmountValue|,
              ri.refundCurrency.getD "GBP", ri.refundTo, ri.refundTime,
              ri.referenceId⟩) := by
  refine C9_refund_amended none (some fb8) order9 tx9 rec9 ?_
  norm_num [ne_eq, Option.some_ne_none, handleNewOrder, getListingForOrder,
    extractShippingDetails, extractShippingCost, extractRefundData, order9, tx9,
    fb8, rec9, ri9, round2, roundHalfEven, Date.toEpochDays] <;> decide

/-- Claim C10, counterexample.  Re-processing a stored order whose
stored name differs from the re-fetched transaction title mutates the
name field, which lies outside the claim's mutable set {status,
shipping, refund, additionalFees, sale.price, sale.quantity}. -/
theorem C10_name_mutated_cex :
    storedRec10.name = "Old Name"
      ∧ (handleModifiedOrder order10 txA storedRec10).name = "Item X"
      ∧ (handleModifiedOrder order10 txA storedRec10).name ≠ storedRec10.name
      ∧ (handleModifiedOrder order10 txA storedRec10).transactionId
          = storedRec10.transactionId := by
  refine ⟨by norm_num [storedRec10, recA], ?_, ?_, ?_⟩ <;>
    norm_num [ne_eq, Option.some_ne_none, handleModifiedOrder, order10,
      extractShippingDetails, extractShippingCost, extractRefundData, orderA, txA,
      trackA, storedRec10, recA, round2, roundHalfEven, Date.toEpochDays] <;>
    decide

/-- Claim C10 as amended: the modification path may mutate only status,
shipping, refund, additionalFees, NAME, sale.price, sale.quantity and
lastModified; every other field - the sale identity fields
(transactionId, itemId, sale.date, sale.platform, sale.currency,
sale.buyerUsername) as well as orderId, customTag, image, purchase,
recordType, listingDate, storeType and history - is copied from the
stored record unchanged. -/
theorem C10_frame_amended (ord : RawOrder) (t : RawTransaction)
    (stored : OrderRecord) :
    (handleModifiedOrder ord t stored).transactionId = stored.transactionId
      ∧ (handleModifiedOrder ord t stored).itemId = stored.itemId
      ∧ (handleModifiedOrder ord t stored).orderId = stored.orderId
      ∧ (handleModifiedOrder ord t stored).customTag = stored.customTag
      ∧ (handleModifiedOrder ord t stored).image = stored.image
      ∧ (handleModifiedOrder ord t stored).purchase = stored.purchase
      ∧ (handleModifiedOrder ord t stored).recordType = stored.recordType
      ∧ (handleModifiedOrder ord t stored).listingDate = stored.listingDate
      ∧ (handleModifiedOrder ord t stored).storeType = stored.storeType
      ∧ (handleModifiedOrder ord t stored).history = stored.history
      ∧ (handleModifiedOrder ord t stored).sale.date = stored.sale.date
      ∧ (handleModifiedOrder ord t stored).sale.platform = stored.sale.platform
      ∧ (handleModifiedOrder ord t stored).sale.currency = stored.sale.currency
      ∧ (handleModifiedOrder ord t stored).sale.buyerUsername
          = stored.sale.buyerUsername := by
  simp only [handleModifiedOrder]
  repeat' split
  all_goals simp

end StoreManager
